import Mathlib

/-!
Shallow embedding of `Set_NOAA_Background_Linux.py`, a script that downloads
a NOAA satellite image and sets it as the Linux desktop background.

The script's effectful boundary (environment variables, PATH probing,
subprocess execution, HTTP, filesystem) is passed in as explicit parameters;
each Lean definition mirrors the control flow of the corresponding Python
function.
-/

namespace NoaaBackground

/-- Substring containment on character lists: `containsSub needle hay` is
true when `needle` occurs contiguously inside `hay`.  Models Python's
`needle in hay` for strings. -/
def containsSub (needle : List Char) : List Char → Bool
  | [] => needle.isEmpty
  | c :: t => needle.isPrefixOf (c :: t) || containsSub needle t

/-- Python's `needle in hay` on strings. -/
def strContains (needle hay : String) : Bool :=
  containsSub needle.data hay.data

/-- Python's `str.upper()`, modelled character-wise (the script only ever
compares against the ASCII names CINNAMON/MATE/XFCE). -/
def pyUpper (s : String) : String := String.mk (s.data.map Char.toUpper)

/-- The desktop-environment classification returned by
`get_desktop_environment`; the Python function returns the strings
"CINNAMON" / "MATE" / "XFCE", or `None` (modelled as `Option DE` with
`none` standing for the UNKNOWN/undetected case). -/
inductive DE
  | CINNAMON
  | MATE
  | XFCE
deriving DecidableEq, Repr

/-- The fallback chain of `get_desktop_environment` (lines 64-75): probe the
search path with `shutil.which` for "cinnamon", "mate-session",
"xfce4-session" in that order; if none is present, print a diagnostic to
stderr and return `None`.  `which` is the oracle for `shutil.which`
(true = binary found on PATH).  Returns the classification together with
the lines printed. -/
def de_fallback (which : String → Bool) : Option DE × List String :=
  if which "cinnamon" then
    (some DE.CINNAMON, ["-> Detected desktop environment: CINNAMON (fallback check)"])
  else if which "mate-session" then
    (some DE.MATE, ["-> Detected desktop environment: MATE (fallback check)"])
  else if which "xfce4-session" then
    (some DE.XFCE, ["-> Detected desktop environment: XFCE (fallback check)"])
  else
    (none, ["!! Could not reliably detect desktop environment."])

/-- `get_desktop_environment` (lines 48-75).  `xdg` is
`os.environ.get('XDG_CURRENT_DESKTOP')` (`none` = unset); `which` is the
`shutil.which` oracle.  Mirrors: uppercase the variable, and when nonempty
match the substrings CINNAMON, MATE, XFCE in that order; otherwise (unset,
empty, or no substring matched) fall through to the PATH probes. -/
def get_desktop_environment (xdg : Option String) (which : String → Bool) :
    Option DE × List String :=
  let desktop := pyUpper (xdg.getD "")
  if desktop = "" then de_fallback which
  else
    let hd := "-> Detected desktop environment: " ++ desktop
    if strContains "CINNAMON" desktop then (some DE.CINNAMON, [hd])
    else if strContains "MATE" desktop then (some DE.MATE, [hd])
    else if strContains "XFCE" desktop then (some DE.XFCE, [hd])
    else
      let fb := de_fallback which
      (fb.1, hd :: fb.2)

/-- The kinds of Python exception relevant to the script's handlers:
`requests.exceptions.RequestException` (including the `HTTPError` raised by
`raise_for_status`), `OSError`, and any other `Exception`. -/
inductive PyExc
  | requestException
  | osError
  | otherExc
deriving DecidableEq, Repr

/-- Observable behavior of the operating system when `subprocess.run` is
asked to execute a command: the process runs and exits with a code (and
captured stdout/stderr), the binary is absent (`FileNotFoundError`), or
some other exception is raised. -/
inductive ExecBehavior
  | exits (code : Nat) (stdout stderr : String)
  | binaryMissing
  | raisesOther
deriving DecidableEq, Repr

/-- The diagnostic kind `run_command` reports: success, command not found
(naming the binary), non-zero exit (reporting the code and the captured
stderr and stdout), or an unexpected execution error. -/
inductive RunDiag
  | ok
  | notFound (binary : String)
  | nonZero (code : Nat) (stderr stdout : String)
  | unexpected
deriving DecidableEq, Repr

/-- `run_command` (lines 152-172): run the command with `check=True` and
captured output.  `beh` is the OS oracle for this invocation.  Returns the
boolean result together with the diagnostic kind: exit code 0 succeeds;
`check=True` turns a non-zero exit into `CalledProcessError` (reporting
code, stderr, stdout); a missing binary raises `FileNotFoundError`
(reported as command not found, naming `command_list[0]`); anything else
falls to the catch-all handler. -/
def run_command (command_list : List String) (beh : ExecBehavior) :
    Bool × RunDiag :=
  match beh with
  | .exits code out err =>
      if code = 0 then (true, RunDiag.ok)
      else (false, RunDiag.nonZero code err out)
  | .binaryMissing => (false, RunDiag.notFound (command_list.headD ""))
  | .raisesOther => (false, RunDiag.unexpected)

/-- Relevant filesystem state for the fetcher: whether the cache file's
parent directory exists, and the cache file's byte content (`none` = the
file does not exist). -/
structure DLState where
  parentExists : Bool
  fileContent : Option (List Nat)
deriving DecidableEq, Repr

/-- The body of `download_image`'s `try` block (lines 24-36), with each
effect's outcome passed in: `mkdirExc` is the exception `mkdir` raises (if
any); `httpResult` is what `requests.get` returns or raises (final status
code and the body's chunk list); `writeExc` is `some (e, k)` when
opening/writing the file raises `e` after `k` chunks were written.  An
`.error` result is an exception escaping the `try` block, paired with the
filesystem state at that moment.  `response.raise_for_status()` raises
`HTTPError` (a `RequestException`) exactly when the status code is 4xx or
5xx. -/
def download_image_try (mkdirExc : Option PyExc)
    (httpResult : Except PyExc (Nat × List (List Nat)))
    (writeExc : Option (PyExc × Nat)) (st : DLState) :
    Except (PyExc × DLState) (Bool × DLState) :=
  match mkdirExc with
  | some e => Except.error (e, st)
  | none =>
    let st1 : DLState := { st with parentExists := true }
    match httpResult with
    | Except.error e => Except.error (e, st1)
    | Except.ok (status, chunks) =>
      if 400 ≤ status && status < 600 then
        Except.error (PyExc.requestException, st1)
      else
        match writeExc with
        | some (e, k) =>
            Except.error (e, { st1 with fileContent := some ((chunks.take k).flatten) })
        | none => Except.ok (true, { st1 with fileContent := some chunks.flatten })

/-- `download_image` (lines 20-46): the `try` body wrapped in the three
`except` handlers (`RequestException`, `OSError`, `Exception`), each of
which prints a diagnostic and returns `False`. -/
def download_image (mkdirExc : Option PyExc)
    (httpResult : Except PyExc (Nat × List (List Nat)))
    (writeExc : Option (PyExc × Nat)) (st : DLState) : Bool × DLState :=
  match download_image_try mkdirExc httpResult writeExc st with
  | Except.ok r => r
  | Except.error (_, st1) => (false, st1)

/-- The `gsettings`/`xfconf-query` argument list built for a Cinnamon or
MATE run (lines 90-103): Cinnamon sets `picture-uri` under
`org.cinnamon.desktop.background` to a `file://`-prefixed absolute path;
MATE sets `picture-filename` under `org.mate.background` to the bare
absolute path. -/
def de_command (de : DE) (abs_image_path : String) : List String :=
  match de with
  | DE.CINNAMON =>
      ["gsettings", "set", "org.cinnamon.desktop.background", "picture-uri",
       "file://" ++ abs_image_path]
  | DE.MATE =>
      ["gsettings", "set", "org.mate.background", "picture-filename",
       abs_image_path]
  | DE.XFCE => []

/-- The per-property `xfconf-query` set command (line 125). -/
def xfce_set_cmd (prop abs_image_path : String) : List String :=
  ["xfconf-query", "-c", "xfce4-desktop", "-p", prop, "-s", abs_image_path]

/-- The XFCE multi-property loop (lines 123-127): for each discovered
property, build the set command and pass it to `run_command`, discarding
the result (the loop does not stop when one command fails).  `exec` maps a
command to its OS behavior.  Returns the commands issued, in order. -/
def xfce_loop (abs_image_path : String) (exec : List String → ExecBehavior) :
    List String → List (List String)
  | [] => []
  | prop :: rest =>
      let command := xfce_set_cmd prop abs_image_path
      let _ := run_command command (exec command)
      command :: xfce_loop abs_image_path exec rest

/-- The filter on discovered XFCE properties (line 115): keep those whose
name contains "last-image" or "image-path". -/
def image_props (props : List String) : List String :=
  props.filter (fun p => strContains "last-image" p || strContains "image-path" p)

/-- Observable outcome of one `set_linux_background` run: the returned
boolean, whether desktop-environment detection ran, whether the
`xfconf-query -l` discovery subprocess was invoked, and the commands passed
to `run_command`, in order. -/
structure SetResult where
  success : Bool
  detectionRun : Bool
  discoveryRun : Bool
  commandsRun : List (List String)
deriving DecidableEq, Repr

/-- The tail of the Cinnamon/MATE path (lines 147-150): execute the built
command if it is non-empty, otherwise the defensive fall-through returns
failure. -/
def runCmdBranch (command : List String) (exec : List String → ExecBehavior) :
    SetResult :=
  if command.isEmpty then
    { success := false, detectionRun := true, discoveryRun := false, commandsRun := [] }
  else
    { success := (run_command command (exec command)).1, detectionRun := true,
      discoveryRun := false, commandsRun := [command] }

/-- `set_linux_background` (lines 78-150).  `fileExists` is
`image_path.is_file()`; `abs_image_path` is the resolved absolute path;
`xdg`/`which` feed detection; `xfconfList` is the outcome of the
`xfconf-query -c xfce4-desktop -l` discovery subprocess (its stdout lines,
or the exception it raised); `exec` is the OS oracle for `run_command`.
Mirrors the source: fail before detection when the file is missing;
dispatch on the detected DE; XFCE filters the discovered properties, fails
when none match, and otherwise sets every matching property and returns
True; an undetected DE fails. -/
def set_linux_background (fileExists : Bool) (abs_image_path : String)
    (xdg : Option String) (which : String → Bool)
    (xfconfList : Except PyExc (List String))
    (exec : List String → ExecBehavior) : SetResult :=
  if fileExists = false then
    { success := false, detectionRun := false, discoveryRun := false, commandsRun := [] }
  else
    match (get_desktop_environment xdg which).1 with
    | some DE.CINNAMON => runCmdBranch (de_command DE.CINNAMON abs_image_path) exec
    | some DE.MATE => runCmdBranch (de_command DE.MATE abs_image_path) exec
    | some DE.XFCE =>
        match xfconfList with
        | Except.error _ =>
            { success := false, detectionRun := true, discoveryRun := true,
              commandsRun := [] }
        | Except.ok props =>
            if (image_props props).isEmpty then
              { success := false, detectionRun := true, discoveryRun := true,
                commandsRun := [] }
            else
              { success := true, detectionRun := true, discoveryRun := true,
                commandsRun := xfce_loop abs_image_path exec (image_props props) }
    | none =>
        { success := false, detectionRun := true, discoveryRun := false,
          commandsRun := [] }

/-! ## Helper lemmas -/

lemma fb_cinnamon (which : String → Bool) (h : which "cinnamon" = true) :
    de_fallback which =
      (some DE.CINNAMON,
       ["-> Detected desktop environment: CINNAMON (fallback check)"]) := by
  simp [de_fallback, h]

lemma fb_mate (which : String → Bool) (h1 : which "cinnamon" = false)
    (h2 : which "mate-session" = true) :
    de_fallback which =
      (some DE.MATE, ["-> Detected desktop environment: MATE (fallback check)"]) := by
  simp [de_fallback, h1, h2]

lemma fb_none (which : String → Bool) (h1 : which "cinnamon" = false)
    (h2 : which "mate-session" = false) (h3 : which "xfce4-session" = false) :
    de_fallback which = (none, ["!! Could not reliably detect desktop environment."]) := by
  simp [de_fallback, h1, h2, h3]

lemma gde_unset (xdg : Option String) (which : String → Bool)
    (h : xdg = none ∨ xdg = some "") :
    get_desktop_environment xdg which = de_fallback which := by
  rcases h with h | h <;> subst h <;> rfl

lemma gde_env_cinnamon (s : String) (which : String → Bool)
    (h : strContains "CINNAMON" (pyUpper s) = true) :
    get_desktop_environment (some s) which =
      (some DE.CINNAMON, ["-> Detected desktop environment: " ++ pyUpper s]) := by
  have hne : ¬ pyUpper s = "" := by
    intro he
    rw [he] at h
    exact absurd h (by decide)
  simp only [get_desktop_environment, Option.getD_some]
  rw [if_neg hne, if_pos h]

lemma gde_env_mate (s : String) (which : String → Bool)
    (hc : strContains "CINNAMON" (pyUpper s) = false)
    (hm : strContains "MATE" (pyUpper s) = true) :
    get_desktop_environment (some s) which =
      (some DE.MATE, ["-> Detected desktop environment: " ++ pyUpper s]) := by
  have hne : ¬ pyUpper s = "" := by
    intro he
    rw [he] at hm
    exact absurd hm (by decide)
  simp only [get_desktop_environment, Option.getD_some]
  rw [if_neg hne, if_neg (by simp [hc]), if_pos hm]

lemma gde_env_xfce (s : String) (which : String → Bool)
    (hc : strContains "CINNAMON" (pyUpper s) = false)
    (hm : strContains "MATE" (pyUpper s) = false)
    (hx : strContains "XFCE" (pyUpper s) = true) :
    get_desktop_environment (some s) which =
      (some DE.XFCE, ["-> Detected desktop environment: " ++ pyUpper s]) := by
  have hne : ¬ pyUpper s = "" := by
    intro he
    rw [he] at hx
    exact absurd hx (by decide)
  simp only [get_desktop_environment, Option.getD_some]
  rw [if_neg hne, if_neg (by simp [hc]), if_neg (by simp [hm]), if_pos hx]

lemma gde_fallthrough (xdg : Option String) (which : String → Bool)
    (hc : strContains "CINNAMON" (pyUpper (xdg.getD "")) = false)
    (hm : strContains "MATE" (pyUpper (xdg.getD "")) = false)
    (hx : strContains "XFCE" (pyUpper (xdg.getD "")) = false) :
    (get_desktop_environment xdg which).1 = (de_fallback which).1 ∧
    ∀ m ∈ (de_fallback which).2, m ∈ (get_desktop_environment xdg which).2 := by
  simp only [get_desktop_environment]
  by_cases he : pyUpper (xdg.getD "") = ""
  · rw [if_pos he]
    exact ⟨rfl, fun m hmem => hmem⟩
  · rw [if_neg he, if_neg (by simp [hc]), if_neg (by simp [hm]), if_neg (by simp [hx])]
    exact ⟨rfl, fun m hmem => List.mem_cons_of_mem _ hmem⟩

lemma xfce_loop_eq (abs_image_path : String) (exec : List String → ExecBehavior) :
    ∀ l : List String,
      xfce_loop abs_image_path exec l = l.map (fun p => xfce_set_cmd p abs_image_path)
  | [] => rfl
  | p :: t => by
      simp [xfce_loop, xfce_loop_eq abs_image_path exec t]

/-! ## Claim theorems -/

/-- C1: when the cached image file does not exist, `set_linux_background`
returns failure immediately: desktop-environment detection does not run,
the `xfconf-query` discovery subprocess is not invoked, and no external
command is executed — for every path, environment, PATH content, discovery
outcome, and command behavior. -/
theorem missing_file_fails_without_detection_or_commands
    (abs_image_path : String) (xdg : Option String) (which : String → Bool)
    (xfconfList : Except PyExc (List String)) (exec : List String → ExecBehavior) :
    set_linux_background false abs_image_path xdg which xfconfList exec =
      { success := false, detectionRun := false, discoveryRun := false,
        commandsRun := [] } := by
  rfl

/-- C2: in an XFCE run where the `xfconf-query -l` discovery succeeds and
at least one listed property contains "last-image" or "image-path", the
setter issues exactly one set command per matching property (in order, not
stopping on any individual failure, since the result is the same for every
command-behavior oracle `exec`) and returns success. -/
theorem xfce_sets_every_matching_property
    (abs_image_path : String) (xdg : Option String) (which : String → Bool)
    (props : List String) (exec : List String → ExecBehavior)
    (hde : (get_desktop_environment xdg which).1 = some DE.XFCE)
    (hprops : (image_props props).isEmpty = false) :
    set_linux_background true abs_image_path xdg which (Except.ok props) exec =
      { success := true, detectionRun := true, discoveryRun := true,
        commandsRun :=
          (image_props props).map (fun p => xfce_set_cmd p abs_image_path) } := by
  simp [set_linux_background, hde, hprops, xfce_loop_eq]

/-- C2 witness: with two matching properties and every set command failing
(exit code 1), both set commands are still issued and the run reports
success. -/
theorem xfce_sets_every_matching_property_witness :
    set_linux_background true "/home/u/.cache/noaa_wallpaper/noaa_latest_background.jpg"
      (some "XFCE") (fun _ => false)
      (Except.ok ["/backdrop/screen0/monitor0/workspace0/last-image",
                  "/backdrop/screen0/monitor1/workspace0/image-path"])
      (fun _ => ExecBehavior.exits 1 "" "err") =
    { success := true, detectionRun := true, discoveryRun := true,
      commandsRun :=
        [["xfconf-query", "-c", "xfce4-desktop", "-p",
          "/backdrop/screen0/monitor0/workspace0/last-image", "-s",
          "/home/u/.cache/noaa_wallpaper/noaa_latest_background.jpg"],
         ["xfconf-query", "-c", "xfce4-desktop", "-p",
          "/backdrop/screen0/monitor1/workspace0/image-path", "-s",
          "/home/u/.cache/noaa_wallpaper/noaa_latest_background.jpg"]] } :=
  xfce_sets_every_matching_property
    "/home/u/.cache/noaa_wallpaper/noaa_latest_background.jpg"
    (some "XFCE") (fun _ => false)
    ["/backdrop/screen0/monitor0/workspace0/last-image",
     "/backdrop/screen0/monitor1/workspace0/image-path"]
    (fun _ => ExecBehavior.exits 1 "" "err") (by decide) (by decide)

/-- C3: in an XFCE run where the `xfconf-query -l` discovery succeeds but
no listed property contains "last-image" or "image-path", the setter
returns failure and no set command is invoked. -/
theorem xfce_no_match_fails_without_set_commands
    (abs_image_path : String) (xdg : Option String) (which : String → Bool)
    (props : List String) (exec : List String → ExecBehavior)
    (hde : (get_desktop_environment xdg which).1 = some DE.XFCE)
    (hprops : (image_props props).isEmpty = true) :
    set_linux_background true abs_image_path xdg which (Except.ok props) exec =
      { success := false, detectionRun := true, discoveryRun := true,
        commandsRun := [] } := by
  simp [set_linux_background, hde, hprops]

/-- C3 witness: a discovery listing with no matching property yields
failure and an empty command list. -/
theorem xfce_no_match_fails_witness :
    set_linux_background true "/tmp/a.jpg" (some "XFCE") (fun _ => false)
      (Except.ok ["/backdrop/screen0/monitor0/workspace0/color-style"])
      (fun _ => ExecBehavior.exits 0 "" "") =
    { success := false, detectionRun := true, discoveryRun := true,
      commandsRun := [] } :=
  xfce_no_match_fails_without_set_commands "/tmp/a.jpg" (some "XFCE")
    (fun _ => false) ["/backdrop/screen0/monitor0/workspace0/color-style"]
    (fun _ => ExecBehavior.exits 0 "" "") (by decide) (by decide)

/-- C4: detection matches the uppercased `XDG_CURRENT_DESKTOP` value
against the substrings CINNAMON/MATE/XFCE (so "X-Cinnamon" yields
CINNAMON, for every PATH content); with the variable unset or empty, the
PATH probes decide (no "cinnamon" but a "mate-session" binary yields
MATE); and when neither the variable matches a known substring nor any of
the three probes succeeds, detection returns the UNKNOWN classification
(`none`) and the printed log contains the diagnostic line. -/
theorem detection_env_fallback_unknown :
    (∀ which : String → Bool,
      (get_desktop_environment (some "X-Cinnamon") which).1 = some DE.CINNAMON) ∧
    (∀ (xdg : Option String) (which : String → Bool),
      (xdg = none ∨ xdg = some "") → which "cinnamon" = false →
      which "mate-session" = true →
      (get_desktop_environment xdg which).1 = some DE.MATE) ∧
    (∀ (xdg : Option String) (which : String → Bool),
      strContains "CINNAMON" (pyUpper (xdg.getD "")) = false →
      strContains "MATE" (pyUpper (xdg.getD "")) = false →
      strContains "XFCE" (pyUpper (xdg.getD "")) = false →
      which "cinnamon" = false → which "mate-session" = false →
      which "xfce4-session" = false →
      (get_desktop_environment xdg which).1 = none ∧
        "!! Could not reliably detect desktop environment." ∈
          (get_desktop_environment xdg which).2) := by
  refine ⟨fun which => ?_, fun xdg which hset h1 h2 => ?_, fun xdg which hc hm hx w1 w2 w3 => ?_⟩
  · rw [gde_env_cinnamon "X-Cinnamon" which (by decide)]
  · rw [gde_unset xdg which hset, fb_mate which h1 h2]
  · obtain ⟨hfst, hmem⟩ := gde_fallthrough xdg which hc hm hx
    rw [fb_none which w1 w2 w3] at hfst hmem
    exact ⟨hfst, hmem _ (List.mem_singleton.mpr rfl)⟩

/-- C4 witness: "X-Cinnamon" detects CINNAMON; an unset variable with only
"mate-session" on PATH detects MATE; "KDE" with an empty PATH yields
UNKNOWN plus the diagnostic. -/
theorem detection_env_fallback_unknown_witness :
    (get_desktop_environment (some "X-Cinnamon") (fun _ => false)).1 =
      some DE.CINNAMON ∧
    (get_desktop_environment none (fun b => b == "mate-session")).1 =
      some DE.MATE ∧
    ((get_desktop_environment (some "KDE") (fun _ => false)).1 = none ∧
      "!! Could not reliably detect desktop environment." ∈
        (get_desktop_environment (some "KDE") (fun _ => false)).2) :=
  ⟨detection_env_fallback_unknown.1 (fun _ => false),
   detection_env_fallback_unknown.2.1 none (fun b => b == "mate-session")
     (Or.inl rfl) (by decide) (by decide),
   detection_env_fallback_unknown.2.2 (some "KDE") (fun _ => false)
     (by decide) (by decide) (by decide) (by decide) (by decide) (by decide)⟩

/-- C9: when the environment variable is set, the substring checks are
applied in the fixed order CINNAMON, then MATE, then XFCE: a value
containing CINNAMON yields CINNAMON whatever else it contains; one
containing MATE but not CINNAMON yields MATE; one containing XFCE but
neither CINNAMON nor MATE yields XFCE — for every PATH content. -/
theorem env_substring_priority (s : String) (which : String → Bool) :
    (strContains "CINNAMON" (pyUpper s) = true →
      (get_desktop_environment (some s) which).1 = some DE.CINNAMON) ∧
    (strContains "CINNAMON" (pyUpper s) = false →
      strContains "MATE" (pyUpper s) = true →
      (get_desktop_environment (some s) which).1 = some DE.MATE) ∧
    (strContains "CINNAMON" (pyUpper s) = false →
      strContains "MATE" (pyUpper s) = false →
      strContains "XFCE" (pyUpper s) = true →
      (get_desktop_environment (some s) which).1 = some DE.XFCE) := by
  refine ⟨fun hc => ?_, fun hc hm => ?_, fun hc hm hx => ?_⟩
  · rw [gde_env_cinnamon s which hc]
  · rw [gde_env_mate s which hc hm]
  · rw [gde_env_xfce s which hc hm hx]

/-- C9 witness: a value containing both CINNAMON and MATE detects
CINNAMON; one containing both MATE and XFCE (but not CINNAMON) detects
MATE. -/
theorem env_substring_priority_witness :
    (get_desktop_environment (some "Cinnamon:MATE") (fun _ => false)).1 =
      some DE.CINNAMON ∧
    (get_desktop_environment (some "MATE:XFCE") (fun _ => false)).1 =
      some DE.MATE :=
  ⟨(env_substring_priority "Cinnamon:MATE" (fun _ => false)).1 (by decide),
   (env_substring_priority "MATE:XFCE" (fun _ => false)).2.1 (by decide) (by decide)⟩

/-- C6: a run detecting CINNAMON issues exactly the `gsettings` command
setting `picture-uri` under `org.cinnamon.desktop.background` to
`file://` concatenated with the absolute cached-image path; a run
detecting MATE issues exactly the `gsettings` command setting
`picture-filename` under `org.mate.background` to the bare absolute path. -/
theorem cinnamon_mate_command_shape (abs_image_path : String)
    (xdg : Option String) (which : String → Bool)
    (xfconfList : Except PyExc (List String)) (exec : List String → ExecBehavior) :
    ((get_desktop_environment xdg which).1 = some DE.CINNAMON →
      (set_linux_background true abs_image_path xdg which xfconfList exec).commandsRun =
        [["gsettings", "set", "org.cinnamon.desktop.background", "picture-uri",
          "file://" ++ abs_image_path]]) ∧
    ((get_desktop_environment xdg which).1 = some DE.MATE →
      (set_linux_background true abs_image_path xdg which xfconfList exec).commandsRun =
        [["gsettings", "set", "org.mate.background", "picture-filename",
          abs_image_path]]) := by
  constructor
  · intro hde
    simp [set_linux_background, hde, runCmdBranch, de_command]
  · intro hde
    simp [set_linux_background, hde, runCmdBranch, de_command]

/-- C6 witness: the concrete commands issued for CINNAMON and MATE runs on
a concrete absolute path. -/
theorem cinnamon_mate_command_shape_witness :
    (set_linux_background true "/home/u/.cache/noaa_wallpaper/noaa_latest_background.jpg"
        (some "X-Cinnamon") (fun _ => false) (Except.ok [])
        (fun _ => ExecBehavior.exits 0 "" "")).commandsRun =
      [["gsettings", "set", "org.cinnamon.desktop.background", "picture-uri",
        "file:///home/u/.cache/noaa_wallpaper/noaa_latest_background.jpg"]] ∧
    (set_linux_background true "/home/u/.cache/noaa_wallpaper/noaa_latest_background.jpg"
        (some "MATE") (fun _ => false) (Except.ok [])
        (fun _ => ExecBehavior.exits 0 "" "")).commandsRun =
      [["gsettings", "set", "org.mate.background", "picture-filename",
        "/home/u/.cache/noaa_wallpaper/noaa_latest_background.jpg"]] :=
  ⟨(cinnamon_mate_command_shape "/home/u/.cache/noaa_wallpaper/noaa_latest_background.jpg"
      (some "X-Cinnamon") (fun _ => false) (Except.ok [])
      (fun _ => ExecBehavior.exits 0 "" "")).1 (by decide),
   (cinnamon_mate_command_shape "/home/u/.cache/noaa_wallpaper/noaa_latest_background.jpg"
      (some "MATE") (fun _ => false) (Except.ok [])
      (fun _ => ExecBehavior.exits 0 "" "")).2 (by decide)⟩

/-- C10: for CINNAMON and MATE the constructed command list is non-empty,
so the defensive fall-through after the dispatch (failure with no command
issued) is never taken: the run's command list is exactly the one built
command and its result is that command's own outcome. -/
theorem dispatch_fallthrough_unreachable (abs_image_path : String)
    (xdg : Option String) (which : String → Bool)
    (xfconfList : Except PyExc (List String)) (exec : List String → ExecBehavior) :
    ((de_command DE.CINNAMON abs_image_path).isEmpty = false) ∧
    ((de_command DE.MATE abs_image_path).isEmpty = false) ∧
    (∀ de : DE, (get_desktop_environment xdg which).1 = some de → de ≠ DE.XFCE →
      (set_linux_background true abs_image_path xdg which xfconfList exec).commandsRun =
          [de_command de abs_image_path] ∧
        (set_linux_background true abs_image_path xdg which xfconfList exec).success =
          (run_command (de_command de abs_image_path)
            (exec (de_command de abs_image_path))).1) := by
  refine ⟨rfl, rfl, fun de hde hx => ?_⟩
  cases de with
  | CINNAMON => constructor <;> simp [set_linux_background, hde, runCmdBranch, de_command]
  | MATE => constructor <;> simp [set_linux_background, hde, runCmdBranch, de_command]
  | XFCE => exact absurd rfl hx

/-- C10 witness: a MATE run with a failing `gsettings` still goes through
the command-execution branch (one command issued, result taken from the
runner), not the fall-through. -/
theorem dispatch_fallthrough_unreachable_witness :
    (set_linux_background true "/tmp/a.jpg" (some "MATE") (fun _ => false)
        (Except.ok []) (fun _ => ExecBehavior.exits 1 "" "e")).commandsRun =
      [de_command DE.MATE "/tmp/a.jpg"] ∧
    (set_linux_background true "/tmp/a.jpg" (some "MATE") (fun _ => false)
        (Except.ok []) (fun _ => ExecBehavior.exits 1 "" "e")).success =
      (run_command (de_command DE.MATE "/tmp/a.jpg")
        (ExecBehavior.exits 1 "" "e")).1 :=
  (dispatch_fallthrough_unreachable "/tmp/a.jpg" (some "MATE") (fun _ => false)
      (Except.ok []) (fun _ => ExecBehavior.exits 1 "" "e")).2.2
    DE.MATE (by decide) (by decide)

/-- C5 counterexample: `response.raise_for_status()` raises only for 4xx
and 5xx status codes, so a non-2xx status below 400 is NOT a failure: with
status 304 the fetch returns success and overwrites the cached file with
the response body — contradicting the claim that every non-2xx status
yields failure with the cached file unmodified. -/
theorem download_non2xx_counterexample :
    (¬ (200 ≤ 304 ∧ 304 < 300)) ∧
    download_image none (Except.ok (304, [[1, 2]])) none
        { parentExists := true, fileContent := some [9] } =
      (true, { parentExists := true, fileContent := some [1, 2] }) := by
  constructor
  · decide
  · rfl

/-- C5 (amended): for every HTTP status in 400..599 the fetch returns
failure and the cached file is left unmodified (its content is exactly the
prior content), while the destination's parent directories are still
created even on that failure. -/
theorem download_4xx5xx_fails_file_unmodified (status : Nat)
    (chunks : List (List Nat)) (writeExc : Option (PyExc × Nat)) (st : DLState)
    (h1 : 400 ≤ status) (h2 : status < 600) :
    download_image none (Except.ok (status, chunks)) writeExc st =
      (false, { st with parentExists := true }) := by
  have hcond : (400 ≤ status && status < 600) = true := by
    simp [h1, h2]
  simp [download_image, download_image_try, hcond]

/-- C5 (amended) witness: a 404 response fails, leaves the file content
untouched, and the parent directory is created. -/
theorem download_4xx5xx_fails_witness :
    download_image none (Except.ok (404, [[7]])) none
        { parentExists := false, fileContent := some [9] } =
      (false, { parentExists := true, fileContent := some [9] }) :=
  download_4xx5xx_fails_file_unmodified 404 [[7]] none
    { parentExists := false, fileContent := some [9] } (by decide) (by decide)

/-- C7: `download_image` never lets an error escape its boundary: every
exception the try-block body raises (HTTP/transfer, filesystem, or any
other) is caught by a handler and converted to the failure result `false`
with the filesystem state as the handler saw it, and every normal result
of the body is returned as-is — so the function always returns a boolean. -/
theorem download_catches_all_errors (mkdirExc : Option PyExc)
    (httpResult : Except PyExc (Nat × List (List Nat)))
    (writeExc : Option (PyExc × Nat)) (st : DLState) :
    (∀ (e : PyExc) (st1 : DLState),
      download_image_try mkdirExc httpResult writeExc st = Except.error (e, st1) →
      download_image mkdirExc httpResult writeExc st = (false, st1)) ∧
    (∀ r : Bool × DLState,
      download_image_try mkdirExc httpResult writeExc st = Except.ok r →
      download_image mkdirExc httpResult writeExc st = r) := by
  constructor
  · intro e st1 he
    simp [download_image, he]
  · intro r hr
    simp [download_image, hr]

/-- C7 witness: a filesystem error raised by `mkdir` is caught and turned
into the failure result. -/
theorem download_catches_all_errors_witness :
    download_image (some PyExc.osError) (Except.ok (200, [[1]])) none
        { parentExists := false, fileContent := none } =
      (false, { parentExists := false, fileContent := none }) :=
  (download_catches_all_errors (some PyExc.osError) (Except.ok (200, [[1]])) none
      { parentExists := false, fileContent := none }).1
    PyExc.osError { parentExists := false, fileContent := none } rfl

/-- C8: `run_command` returns true exactly when the command exits with
status zero, and classifies failures into three distinct kinds: a missing
binary is reported as command-not-found (naming the binary, never as a
non-zero exit), a non-zero exit is reported with its code and the captured
stderr/stdout, and any other execution error is reported as unexpected. -/
theorem run_command_classification (command_list : List String)
    (beh : ExecBehavior) :
    ((run_command command_list beh).1 = true ↔
      ∃ out err, beh = ExecBehavior.exits 0 out err) ∧
    (∀ (code : Nat) (out err : String), code ≠ 0 →
      run_command command_list (ExecBehavior.exits code out err) =
        (false, RunDiag.nonZero code err out)) ∧
    (run_command command_list ExecBehavior.binaryMissing =
      (false, RunDiag.notFound (command_list.headD ""))) ∧
    (run_command command_list ExecBehavior.raisesOther =
      (false, RunDiag.unexpected)) ∧
    (∀ (b : String) (code : Nat) (err out : String),
      RunDiag.notFound b ≠ RunDiag.nonZero code err out) := by
  refine ⟨?_, fun code out err hc => ?_, rfl, rfl, fun b code err out => by simp⟩
  · cases beh with
    | exits code out err =>
        by_cases hc : code = 0
        · subst hc
          simp [run_command]
        · simp [run_command, hc]
    | binaryMissing => simp [run_command]
    | raisesOther => simp [run_command]
  · simp [run_command, hc]

/-- C8 witness: a nonexistent binary is reported as command-not-found
(naming it), while an exit with code 1 is reported as a non-zero exit with
its code and output — two distinct diagnostics. -/
theorem run_command_classification_witness :
    run_command ["nosuchbinary", "arg"] ExecBehavior.binaryMissing =
      (false, RunDiag.notFound "nosuchbinary") ∧
    run_command ["gsettings"] (ExecBehavior.exits 1 "out" "err") =
      (false, RunDiag.nonZero 1 "err" "out") :=
  ⟨(run_command_classification ["nosuchbinary", "arg"]
      ExecBehavior.binaryMissing).2.2.1,
   (run_command_classification ["gsettings"]
      (ExecBehavior.exits 1 "out" "err")).2.1 1 "out" "err" (by decide)⟩

end NoaaBackground
